import Mathlib

/-!
Shallow embedding of the Event-management backend (Express + Mongoose + Redis),
restricted to the code paths the specification's claims are about:

* `src/server/controllers/ticketController/ticketController.js`
  (ticket CRUD, cached ticket listing, purchase flow, `updateTicketsAvailable`);
* the comment listing controller and the payment verification controller
  (`src/unnamed/part_007`);
* the Joi validation schemas (`src/unnamed/part_003`,
  `src/server/middlewares/validationMiddlewares/purchaseTicketValidation.js`);
* the payment Mongoose schema with its unique indexes
  (`src/server/models/paymentModel/paymentModel.js`);
* the global error handler (`src/unnamed/part_004`).

JavaScript numbers occurring in these paths are modelled as `Int` (all the
claims are about integral quantities and prices).  Mongo collections are
modelled as association lists keyed by the document id; `Model.create` mints a
fresh id which the embedding takes as an explicit argument.  The Redis cache is
an association list from key strings to the (de)serialised payload: the code
stores `JSON.stringify` of a view list and returns `JSON.parse` of whatever
string is found, which round-trips, so the cache stores the view payload
directly.
-/

namespace EventMgmt

/-- Document of the `tickets` collection, as created by
`createTicketController` (`admin`, `event`, `ticketType`, `price`,
`ticketsAvailable`). -/
structure Ticket where
  admin : String
  event : String
  ticketType : String
  price : Int
  ticketsAvailable : Int
deriving Repr, DecidableEq

/-- Document of the `purchasedTicket` collection
(`src/unnamed/part_009`): `user`, `event`, `ticketType`, `ticketsQuantity`,
`totalPrice` (timestamps omitted). -/
structure PurchaseRecord where
  user : String
  event : String
  ticketType : String
  ticketsQuantity : Int
  totalPrice : Int
deriving Repr, DecidableEq

/-- Document of the events collection as used by `createTicketController`:
the owning admin and the nested `events.active` flag. -/
structure EventDoc where
  admin : String
  active : Bool
deriving Repr, DecidableEq

/-- Document of the comments collection
(`src/server/models/comments/commentsModel.js` usage in part_007):
`user`, `event`, `comments`, plus the `createdAt` timestamp rendered by
`toLocaleString`, kept as an opaque string. -/
structure CommentDoc where
  user : String
  event : String
  comments : String
  createdAt : String
deriving Repr, DecidableEq

/-- View object produced by `ticketListByEventController`'s `map`:
`{id, createdBy, type, price, ticketsAvailable}`. -/
structure TicketView where
  id : String
  createdBy : String
  type : String
  price : Int
  ticketsAvailable : Int
deriving Repr, DecidableEq

/-- View object produced by `commentListController`'s `map`:
`{id, user, comment, time}`. -/
structure CommentView where
  id : String
  user : String
  comment : String
  time : String
deriving Repr, DecidableEq

/-- Payload stored in the Redis cache.  The code stores `JSON.stringify` of a
view list and every reader returns `JSON.parse` of the stored string verbatim,
so the embedding keeps the deserialised payload. -/
inductive CacheValue where
  | ticketList (views : List TicketView)
  | commentList (views : List CommentView)
deriving Repr, DecidableEq

/-- The persistent state visible to the embedded controllers: the Mongo
collections (association lists keyed by document id, with the referenced
admin/user collections reduced to the `userName` field that `populate`
selects) and the Redis cache. -/
structure AppState where
  admins : List (String × String)
  users : List (String × String)
  events : List (String × EventDoc)
  tickets : List (String × Ticket)
  comments : List (String × CommentDoc)
  purchases : List (String × PurchaseRecord)
  cache : List (String × CacheValue)
deriving Repr, DecidableEq

/-- Overwrite-or-insert on an association list; models both a Mongoose
`save`/`findByIdAndUpdate` on an existing row and a Redis `set`. -/
def storePut {α : Type} (l : List (String × α)) (k : String) (v : α) :
    List (String × α) :=
  match l with
  | [] => [(k, v)]
  | (k0, v0) :: rest =>
    if k0 == k then (k, v) :: rest else (k0, v0) :: storePut rest k v

/-- Operational error carrying an HTTP status code and message; models the
`AppError` class (`src/unnamed/part_013`) with its defaults
`status = false`, `isOperational = true`. -/
structure AppError where
  statusCode : Nat
  message : String
deriving Repr, DecidableEq

/-- Model of `mongoose.Types.ObjectId.isValid` on the 24-character
hexadecimal id strings used throughout the routes. -/
def isValidObjectId (s : String) : Bool :=
  s.length == 24 && s.toList.all (fun c =>
    c.isDigit || ('a' ≤ c && c ≤ 'f') || ('A' ≤ c && c ≤ 'F'))

/-! ## updateTicketsAvailable and the purchase flow
(`src/server/controllers/ticketController/ticketController.js`,
lines 517-607 and 785-798) -/

/-- Faithful translation of `updateTicketsAvailable` (lines 785-798):
subtract `quantity` from `ticketsAvailable`, keeping the result when it is
`>= 0` and clamping to `0` otherwise. -/
def updateTicketsAvailable (ticket : Ticket) (quantity : Int) : Ticket :=
  let remainingTickets := ticket.ticketsAvailable - quantity
  if remainingTickets >= 0 then
    { ticket with ticketsAvailable := remainingTickets }
  else
    { ticket with ticketsAvailable := 0 }

/-- Request body of the purchase endpoint before validation; `none` models an
absent field (Joi `required()` is the only constraint imposed). -/
structure PurchaseBody where
  ticketType : Option String
  ticketsQuantity : Option Int
deriving Repr, DecidableEq

/-- Model of `purchaseTicketSchema.validate`
(`src/server/middlewares/validationMiddlewares/purchaseTicketValidation.js`):
`ticketType: Joi.string().required()`, `ticketsQuantity:
Joi.number().required()` — presence and type only, no bound on the number. -/
def purchaseTicketSchemaValidate (b : PurchaseBody) : Option (String × Int) :=
  match b.ticketType, b.ticketsQuantity with
  | some t, some q => some (t, q)
  | _, _ => none

/-- Success payload of the purchase endpoint:
`{id, ticketType, quantity, price}` where `price` carries the record's
`totalPrice`. -/
structure PurchaseView where
  id : String
  ticketType : String
  quantity : Int
  price : Int
deriving Repr, DecidableEq

/-- Steps of `purchaseTicketController` from the ticket-type check onwards,
parameterised by the `existingTicket` document previously obtained from
`Ticket.findById` (lines 560-607).  `createOk` injects the outcome of
`PurchaseTicketModel.create` (line 577): when `false` the controller exits
through its "purchase failed, try again later" branch (or, equivalently for
the state, a thrown persistence error caught by `tryCatch`) without touching
the ticket.  `newId` is the id Mongo mints for the new purchase document.
On success the controller appends the purchase record, then stores
`updateTicketsAvailable existingTicket qty` via `save()` — note the saved
document is the in-memory `existingTicket` snapshot, not a re-read of the
collection. -/
def purchaseCommit (createOk : Bool) (userId ticketType : String)
    (ticketsQuantity : Int) (existingTicket : Ticket)
    (ticketId newId : String) (st : AppState) :
    Except AppError PurchaseView × AppState :=
  if existingTicket.ticketType ≠ ticketType then
    (Except.error ⟨400, "invalid ticket type"⟩, st)
  else if ticketsQuantity > existingTicket.ticketsAvailable then
    (Except.error ⟨400, "tickets not available"⟩, st)
  else
    let totalPrice := existingTicket.price * ticketsQuantity
    if createOk then
      let record : PurchaseRecord :=
        ⟨userId, existingTicket.event, ticketType, ticketsQuantity, totalPrice⟩
      let st1 := { st with purchases := st.purchases ++ [(newId, record)] }
      let updatedTicket := updateTicketsAvailable existingTicket ticketsQuantity
      let st2 := { st1 with tickets := storePut st1.tickets ticketId updatedTicket }
      (Except.ok ⟨newId, ticketType, ticketsQuantity, totalPrice⟩, st2)
    else
      (Except.error ⟨400, "purchase failed, try again later"⟩, st)

/-- Faithful translation of `purchaseTicketController` (lines 517-607):
Joi validation, `req.user.id` presence check, `ObjectId` validity check
(the code's message is literally "invalid event id"), `Ticket.findById`,
then `purchaseCommit` on the document found. -/
def purchaseTicketController (createOk : Bool) (userId : Option String)
    (ticketId newId : String) (body : PurchaseBody) (st : AppState) :
    Except AppError PurchaseView × AppState :=
  match purchaseTicketSchemaValidate body with
  | none => (Except.error ⟨400, "ValidationError"⟩, st)
  | some (ticketType, ticketsQuantity) =>
    match userId with
    | none => (Except.error ⟨401, "unauthorized access"⟩, st)
    | some uid =>
      if ¬ isValidObjectId ticketId then
        (Except.error ⟨400, "invalid event id"⟩, st)
      else
        match st.tickets.lookup ticketId with
        | none => (Except.error ⟨400, "no tickets found"⟩, st)
        | some existingTicket =>
          purchaseCommit createOk uid ticketType ticketsQuantity
            existingTicket ticketId newId st

/-- Two purchase requests for the same ticket whose `await Ticket.findById`
calls both resolve before either handler resumes (a schedule the Node.js
event loop permits, every `await` being a suspension point): each handler
then runs `purchaseCommit` on its own stale in-memory snapshot of the ticket
document, the second seeing the collection state left by the first only
through `save`'s overwrite, never through its snapshot. -/
def interleavedPurchasePair (u1 u2 ticketType : String) (q1 q2 : Int)
    (ticketId id1 id2 : String) (st : AppState) :
    Except AppError PurchaseView × Except AppError PurchaseView × AppState :=
  match st.tickets.lookup ticketId with
  | none =>
    (Except.error ⟨400, "no tickets found"⟩,
     Except.error ⟨400, "no tickets found"⟩, st)
  | some snapshot =>
    let r1 := purchaseCommit true u1 ticketType q1 snapshot ticketId id1 st
    let r2 := purchaseCommit true u2 ticketType q2 snapshot ticketId id2 r1.2
    (r1.1, r2.1, r2.2)

/-! ## Ticket creation and update
(`src/server/controllers/ticketController/ticketController.js`, lines 29-221)
-/

/-- Request body of the ticket create/update endpoints before validation. -/
structure TicketBody where
  ticketType : Option String
  price : Option Int
  ticketsAvailable : Option Int
deriving Repr, DecidableEq

/-- Model of `ticketSchema.validate` (`src/unnamed/part_003`, lines 6-10):
`ticketType: Joi.string().required()`, `price: Joi.number().required()`,
`ticketsAvailable: Joi.number().required()` — presence and type only; no
lower bound and no integrality constraint on either number. -/
def ticketSchemaValidate (b : TicketBody) : Option (String × Int × Int) :=
  match b.ticketType, b.price, b.ticketsAvailable with
  | some t, some p, some a => some (t, p, a)
  | _, _, _ => none

/-- Success payload of the ticket create/update endpoints:
`{id, type, price, ticketsAvailable}`. -/
structure TicketRespView where
  id : String
  type : String
  price : Int
  ticketsAvailable : Int
deriving Repr, DecidableEq

/-- Outcome of `createTicketController`: a 201 with the created ticket, the
200 "event is inactive" response, or an error forwarded to `next`. -/
inductive CreateTicketResult where
  | created (view : TicketRespView)
  | inactive
  | error (e : AppError)
deriving Repr, DecidableEq

/-- Faithful translation of `createTicketController` (lines 29-108):
Joi validation, admin-id presence, event-id `ObjectId` validity,
`Events.findById`, the `events.active` check, the owning-admin check, then
`Ticket.create` with the validated `ticketType`, `price`,
`ticketsAvailable` exactly as supplied.  `newId` is the id Mongo mints for
the created ticket document. -/
def createTicketController (userId : Option String) (eventId newId : String)
    (body : TicketBody) (st : AppState) : CreateTicketResult × AppState :=
  match ticketSchemaValidate body with
  | none => (CreateTicketResult.error ⟨400, "ValidationError"⟩, st)
  | some (ticketType, price, ticketsAvailable) =>
    match userId with
    | none => (CreateTicketResult.error ⟨401, "unauthorized access"⟩, st)
    | some adminId =>
      if ¬ isValidObjectId eventId then
        (CreateTicketResult.error ⟨400, "invalid event id"⟩, st)
      else
        match st.events.lookup eventId with
        | none => (CreateTicketResult.error ⟨404, "event not found"⟩, st)
        | some existingEvent =>
          if ¬ existingEvent.active then
            (CreateTicketResult.inactive, st)
          else if existingEvent.admin ≠ adminId then
            (CreateTicketResult.error
              ⟨403, "you are not authorized to create tickets"⟩, st)
          else
            let newTicket : Ticket :=
              ⟨adminId, eventId, ticketType, price, ticketsAvailable⟩
            let st1 := { st with tickets := storePut st.tickets newId newTicket }
            (CreateTicketResult.created
              ⟨newId, ticketType, price, ticketsAvailable⟩, st1)

/-- Faithful translation of `updateTicketByIdController` (lines 131-221):
Joi validation, admin-id presence, ticket-id validity, `Ticket.findById`,
the `existingTicket.event` presence check, the owning-admin check, then
`findByIdAndUpdate`.  The update document's `adminId`/`eventId` keys are not
schema paths, so the stored row keeps its `admin` and `event` fields and
takes the validated `ticketType`, `price` and `ticketsAvailable` as
supplied; the purchases collection is never touched. -/
def updateTicketByIdController (userId : Option String) (ticketId : String)
    (body : TicketBody) (st : AppState) :
    Except AppError TicketRespView × AppState :=
  match ticketSchemaValidate body with
  | none => (Except.error ⟨400, "ValidationError"⟩, st)
  | some (ticketType, price, ticketsAvailable) =>
    match userId with
    | none => (Except.error ⟨401, "unauthorized access"⟩, st)
    | some adminId =>
      if ¬ isValidObjectId ticketId then
        (Except.error ⟨400, "invalid ticket id"⟩, st)
      else
        match st.tickets.lookup ticketId with
        | none => (Except.error ⟨404, "no tickets found"⟩, st)
        | some existingTicket =>
          if existingTicket.event == "" then
            (Except.error ⟨404, "no events found with this ticket"⟩, st)
          else if existingTicket.admin ≠ adminId then
            (Except.error
              ⟨403, "you are not authorized to update this ticket"⟩, st)
          else
            let updatedTicket : Ticket :=
              { existingTicket with
                  ticketType := ticketType
                  price := price
                  ticketsAvailable := ticketsAvailable }
            let st1 :=
              { st with tickets := storePut st.tickets ticketId updatedTicket }
            (Except.ok ⟨ticketId, ticketType, price, ticketsAvailable⟩, st1)

/-! ## Cached list endpoints
(`ticketListByEventController`, lines 319-388, and `commentListController`,
`src/unnamed/part_007`, lines 302-361) -/

/-- Mapping step of the ticket listing: `populate` resolves `doc.admin`
against the admins collection selecting `userName`; on a dangling reference
`doc.admin.userName` would throw, modelled as `none`. -/
def ticketViewOf (admins : List (String × String)) (idDoc : String × Ticket) :
    Option TicketView :=
  match admins.lookup idDoc.2.admin with
  | none => none
  | some userName =>
    some ⟨idDoc.1, userName, idDoc.2.ticketType, idDoc.2.price,
      idDoc.2.ticketsAvailable⟩

/-- Faithful translation of `ticketListByEventController` (lines 319-388).
The cache lookup on key `tickets:<eventId>` comes first and on a hit the
parsed cached payload is returned as-is, before the event-id validity check
and before the `req.user.id` check; on a miss the controller validates,
queries, maps, caches the view list (TTL one hour, expiry not modelled) and
returns it.  A dangling `admin` reference during `populate`'s mapping throws
and surfaces as the generic 500. -/
def ticketListByEventController (userId : Option String) (eventId : String)
    (st : AppState) : Except AppError CacheValue × AppState :=
  let key := "tickets:" ++ eventId
  match st.cache.lookup key with
  | some cachedData => (Except.ok cachedData, st)
  | none =>
    if ¬ isValidObjectId eventId then
      (Except.error ⟨400, "invalid event id"⟩, st)
    else
      match userId with
      | none => (Except.error ⟨401, "unauthorized access"⟩, st)
      | some _ =>
        let allTickets := st.tickets.filter (fun p => p.2.event == eventId)
        if allTickets.isEmpty then
          (Except.error ⟨404, "no tickets found with this event"⟩, st)
        else
          match allTickets.mapM (ticketViewOf st.admins) with
          | none => (Except.error ⟨500, "Something went wrong"⟩, st)
          | some tickets =>
            let st1 :=
              { st with
                  cache := storePut st.cache key (CacheValue.ticketList tickets) }
            (Except.ok (CacheValue.ticketList tickets), st1)

/-- Mapping step of the comment listing: `populate` resolves `doc.user`
selecting `userName`; `doc.createdAt.toLocaleString()` is kept as the stored
string. -/
def commentViewOf (users : List (String × String)) (idDoc : String × CommentDoc) :
    Option CommentView :=
  match users.lookup idDoc.2.user with
  | none => none
  | some userName =>
    some ⟨idDoc.1, userName, idDoc.2.comments, idDoc.2.createdAt⟩

/-- Faithful translation of `commentListController` (`src/unnamed/part_007`,
lines 302-361).  The cache lookup on key `comment:<eventId>` comes first and
on a hit the parsed cached payload is returned as-is, before the event-id
validity check; the controller reads no field of `req.user` at all. -/
def commentListController (eventId : String) (st : AppState) :
    Except AppError CacheValue × AppState :=
  let key := "comment:" ++ eventId
  match st.cache.lookup key with
  | some cachedData => (Except.ok cachedData, st)
  | none =>
    if ¬ isValidObjectId eventId then
      (Except.error ⟨400, "invalid event id"⟩, st)
    else
      let commentsResult := st.comments.filter (fun p => p.2.event == eventId)
      if commentsResult.isEmpty then
        (Except.error ⟨404, "no comments found for this event"⟩, st)
      else
        match commentsResult.mapM (commentViewOf st.users) with
        | none => (Except.error ⟨500, "Something went wrong"⟩, st)
        | some allComments =>
          let st1 :=
            { st with
                cache := storePut st.cache key (CacheValue.commentList allComments) }
          (Except.ok (CacheValue.commentList allComments), st1)

/-! ## Error handler (`src/unnamed/part_004`, lines 18-127) -/

/-- Errors reaching the global error handler through `next`: an `AppError`
(operational), a Mongo duplicate-key error (`code === 11000`, carrying the
violated index's `keyPattern` field name and its `keyValue`), a Joi
`ValidationError`, or the two JWT errors. -/
inductive JsError where
  | app (e : AppError)
  | mongoDup (field : String) (value : String)
  | joiValidation (messages : List String)
  | tokenExpired
  | jsonWebToken
deriving Repr, DecidableEq

/-- Faithful translation of `errorHandler` (lines 18-37 with its helpers):
duplicate-key errors are special-cased only for the `email`, `userName` and
`ticketType` indexes (mapped to 409); any other duplicate-key error keeps the
raw Mongo error, whose missing `statusCode` defaults to 500 and whose falsy
`isOperational` selects the generic "Something went wrong" body.  Joi
validation errors map to 400 with the joined detail messages; `AppError`s are
operational and surface their own status code and message. -/
def errorHandler (err : JsError) : Nat × String :=
  match err with
  | JsError.app e => (e.statusCode, e.message)
  | JsError.mongoDup field value =>
    if field == "email" then
      (409, "This " ++ value ++ " already exists")
    else if field == "userName" then
      (409, "Username " ++ value ++ " is already taken, please use a different name")
    else if field == "ticketType" then
      (409, "This ticket type " ++ value ++ " exists, please use a different type")
    else
      (500, "Something went wrong")
  | JsError.joiValidation messages =>
    (400, String.intercalate (", ") messages)
  | JsError.tokenExpired => (401, "Session expired, please login again")
  | JsError.jsonWebToken => (401, "You are not authorized to access this page")

/-! ## Payment verification
(`src/unnamed/part_007`, lines 370-513, and
`src/server/models/paymentModel/paymentModel.js`) -/

/-- Document of the `payments` collection
(`src/server/models/paymentModel/paymentModel.js`): `user` plus the three
Razorpay fields, each carrying `unique: true`. -/
structure PaymentDoc where
  user : String
  razorpay_payment_id : String
  razorpay_order_id : String
  razorpay_signature : String
deriving Repr, DecidableEq

/-- Request body of `POST /payment/verification` as destructured by
`paymentVerification`. -/
structure PaymentBody where
  razorpay_payment_id : String
  razorpay_order_id : String
  razorpay_signature : String
deriving Repr, DecidableEq

/-- The shared secret passed to `crypto.createHmac` at
`src/unnamed/part_007`, line 486. -/
def razorpaySecret : String := "ggMzScMI6LI4RpKdaudtuVQb"

/-- JavaScript string coercion of the module-level `let orderId` variable
(`src/unnamed/part_007`, line 378) inside `orderId + "|" + ...`: the variable
is never assigned anywhere in the repository, so at every call it holds
`undefined`, which string concatenation renders as "undefined". -/
def orderIdVarAsString (orderIdVar : Option String) : String :=
  match orderIdVar with
  | none => "undefined"
  | some s => s

/-- The signature the controller generates (lines 484-487): an HMAC-SHA256
under `razorpaySecret` of `orderId + "|" + razorpay_payment_id`, where
`orderId` is the module-level variable, not the request's
`razorpay_order_id`.  The HMAC itself is an external crypto primitive and is
a parameter of the embedding. -/
def generatedSignature (hmac : String → String → String)
    (orderIdVar : Option String) (payment_id : String) : String :=
  hmac razorpaySecret (orderIdVarAsString orderIdVar ++ "|" ++ payment_id)

/-- Insertion into the `payments` collection under its three unique indexes:
a collision on any of `razorpay_payment_id`, `razorpay_order_id`,
`razorpay_signature` raises the Mongo duplicate-key error (`code 11000`)
naming the violated index. -/
def paymentCreate (records : List PaymentDoc) (newDoc : PaymentDoc) :
    Except JsError (List PaymentDoc) :=
  if records.any (fun p => p.razorpay_payment_id == newDoc.razorpay_payment_id) then
    Except.error (JsError.mongoDup ("razorpay_payment_id") newDoc.razorpay_payment_id)
  else if records.any (fun p => p.razorpay_order_id == newDoc.razorpay_order_id) then
    Except.error (JsError.mongoDup ("razorpay_order_id") newDoc.razorpay_order_id)
  else if records.any (fun p => p.razorpay_signature == newDoc.razorpay_signature) then
    Except.error (JsError.mongoDup ("razorpay_signature") newDoc.razorpay_signature)
  else
    Except.ok (records ++ [newDoc])

/-- Faithful translation of `paymentVerification` (lines 469-513):
`req.user._id` presence check, signature generation from the module-level
`orderId` variable and the request's `razorpay_payment_id`, comparison with
the supplied `razorpay_signature` (mismatch → `AppError 400 "payment
failed"`), then `paymentModel.create`, whose duplicate-key rejection
propagates through `tryCatch` to `next` as the raw Mongo error.  On success
the controller sends the string "success". -/
def paymentVerification (hmac : String → String → String)
    (orderIdVar : Option String) (userId : Option String) (body : PaymentBody)
    (records : List PaymentDoc) : Except JsError String × List PaymentDoc :=
  match userId with
  | none => (Except.error (JsError.app ⟨401, "unauthorized access"⟩), records)
  | some uid =>
    if generatedSignature hmac orderIdVar body.razorpay_payment_id ≠
        body.razorpay_signature then
      (Except.error (JsError.app ⟨400, "payment failed"⟩), records)
    else
      match paymentCreate records
          ⟨uid, body.razorpay_payment_id, body.razorpay_order_id,
            body.razorpay_signature⟩ with
      | Except.error e => (Except.error e, records)
      | Except.ok newRecords => (Except.ok ("success"), newRecords)

/-- HTTP outcome of the payment verification route: status code and body,
with errors rendered by the global error handler. -/
def paymentVerificationHttp (hmac : String → String → String)
    (orderIdVar : Option String) (userId : Option String) (body : PaymentBody)
    (records : List PaymentDoc) : (Nat × String) × List PaymentDoc :=
  match paymentVerification hmac orderIdVar userId body records with
  | (Except.ok s, newRecords) => ((200, s), newRecords)
  | (Except.error e, newRecords) => (errorHandler e, newRecords)

/-! ## Concrete fixtures used by the claim theorems -/

/-- Sample ticket id (a well-formed 24-character hex ObjectId). -/
def tid1 : String := "61a000000000000000000001"

/-- Sample event id. -/
def eid1 : String := "61b000000000000000000001"

/-- Sample admin id. -/
def aid1 : String := "61c000000000000000000001"

/-- Sample user id. -/
def uid1 : String := "61d000000000000000000001"

/-- Sample id minted for a first purchase record. -/
def pid1 : String := "61e000000000000000000001"

/-- Sample id minted for a second purchase record. -/
def pid2 : String := "61e000000000000000000002"

/-- Sample ticket: type "vip", unit price 100, five tickets available. -/
def ticketVip : Ticket := ⟨aid1, eid1, "vip", 100, 5⟩

/-- Sample state: one admin, one user, one active event owned by the admin,
one ticket, empty purchase ledger and cache. -/
def baseState : AppState :=
  ⟨[(aid1, "alice")], [(uid1, "bob")], [(eid1, ⟨aid1, true⟩)],
   [(tid1, ticketVip)], [], [], []⟩

/-- Sample state before any ticket exists, for the creation scenarios. -/
def orgState : AppState :=
  ⟨[(aid1, "alice")], [(uid1, "bob")], [(eid1, ⟨aid1, true⟩)], [], [], [], []⟩

/-- Sample state whose ticket listing for the event is warm in the cache,
reflecting the current store (five tickets available). -/
def warmState : AppState :=
  { baseState with
      cache := [("tickets:" ++ eid1,
        CacheValue.ticketList [⟨tid1, "alice", "vip", 100, 5⟩])] }

/-- Sample state with warm (empty-listing) cache entries under an ill-formed
event id, for the cache-hit bypass scenarios. -/
def warmListState : AppState :=
  { baseState with
      cache := [("tickets:!!", CacheValue.ticketList []),
                ("comment:!!", CacheValue.commentList [])] }

/-! ## Claim theorems -/

/-- C1: the spec claims that for a ticket with `availableQuantity = 5` and
two concurrent purchase requests of quantity 3 each, exactly one succeeds and
the total decrement is 3, never 6.  The code has no mutual exclusion: under
the event-loop schedule in which both `Ticket.findById` reads resolve before
either handler resumes, both requests pass the availability check against
their stale snapshot and both commit — two purchase records totalling 6 > 5
quantity are created, and the stored ticket ends at `ticketsAvailable = 2`
having sold 6 of 5 tickets. -/
theorem c1_concurrent_purchases_oversell :
    interleavedPurchasePair uid1 uid1 ("vip") 3 3 tid1 pid1 pid2 baseState =
      (Except.ok ⟨pid1, "vip", 3, 300⟩,
       Except.ok ⟨pid2, "vip", 3, 300⟩,
       { baseState with
           tickets := [(tid1, { ticketVip with ticketsAvailable := 2 })],
           purchases := [(pid1, ⟨uid1, eid1, "vip", 3, 300⟩),
                         (pid2, ⟨uid1, eid1, "vip", 3, 300⟩)] }) ∧
    (3 + 3 : Int) > ticketVip.ticketsAvailable := by
  constructor
  · rfl
  · decide

/-- The clamp in `updateTicketsAvailable` makes its output non-negative
whatever the inputs. -/
theorem updateTicketsAvailable_nonneg (t : Ticket) (q : Int) :
    0 ≤ (updateTicketsAvailable t q).ticketsAvailable := by
  simp only [updateTicketsAvailable]
  split
  · next h => simpa using h
  · simp

/-- Membership in `storePut l k v` is membership in `l` or being `(k, v)`. -/
theorem storePut_mem {α : Type} (P : String × α → Prop) (l : List (String × α))
    (k : String) (v : α) (hl : ∀ p ∈ l, P p) (hv : P (k, v)) :
    ∀ p ∈ storePut l k v, P p := by
  induction l with
  | nil =>
    intro p hp
    simp only [storePut, List.mem_singleton] at hp
    subst hp
    exact hv
  | cons head tail ih =>
    intro p hp
    simp only [storePut] at hp
    split at hp
    · rcases List.mem_cons.mp hp with h | h
      · subst h; exact hv
      · exact hl _ (List.mem_cons_of_mem _ h)
    · rcases List.mem_cons.mp hp with h | h
      · subst h; exact hl _ (List.mem_cons_self _ _)
      · exact ih (fun q hq => hl q (List.mem_cons_of_mem _ hq)) _ h

/-- C2 (counterexample): the claim says every operation that creates a ticket
leaves `ticketsAvailable ≥ 0`, but the Joi schema only requires a number, so
`createTicketController` accepts `ticketsAvailable = -5` and stores a ticket
whose available quantity is negative. -/
theorem c2_create_ticket_negative_counterexample :
    createTicketController (some aid1) eid1 tid1
        ⟨some ("vip"), some 100, some (-5)⟩ orgState =
      (CreateTicketResult.created ⟨tid1, "vip", 100, -5⟩,
       { orgState with tickets := [(tid1, ⟨aid1, eid1, "vip", 100, -5⟩)] }) ∧
    (-5 : Int) < 0 := by
  exact ⟨rfl, by decide⟩

/-- C2 (amended): purchase attempts do preserve the non-negativity of every
stored ticket's `ticketsAvailable` — the availability check rejects larger
quantities and `updateTicketsAvailable` clamps at zero — although ticket
creation and update accept arbitrary numbers (see the counterexample). -/
theorem c2_purchase_preserves_nonnegative_inventory (createOk : Bool)
    (userId : Option String) (ticketId newId : String) (body : PurchaseBody)
    (st : AppState) (h : ∀ p ∈ st.tickets, 0 ≤ p.2.ticketsAvailable) :
    ∀ p ∈ ((purchaseTicketController createOk userId ticketId newId body st).2).tickets,
      0 ≤ p.2.ticketsAvailable := by
  unfold purchaseTicketController purchaseCommit
  repeat' split
  all_goals try exact h
  intro p hp
  exact storePut_mem (fun q => 0 ≤ q.2.ticketsAvailable) _ _ _ h
    (updateTicketsAvailable_nonneg _ _) p hp

/-- C2 witness: the amended theorem applied to a concrete successful purchase
of 3 of 5 tickets. -/
theorem c2_purchase_preserves_nonnegative_inventory_witness :
    (∀ p ∈ baseState.tickets, 0 ≤ p.2.ticketsAvailable) ∧
    ∀ p ∈ ((purchaseTicketController true (some uid1) tid1 pid1
        ⟨some ("vip"), some 3⟩ baseState).2).tickets, 0 ≤ p.2.ticketsAvailable :=
  ⟨by decide,
   c2_purchase_preserves_nonnegative_inventory true (some uid1) tid1 pid1
     ⟨some ("vip"), some 3⟩ baseState (by decide)⟩

/-- C3: every purchase attempt that terminates in an error — validation
failure, missing user, invalid or unknown ticket id, wrong type, insufficient
availability, or persistence failure when creating the purchase record —
leaves the tickets collection exactly as it was: zero net inventory change
for every non-committed attempt.  (In this code the decrement happens only
after the record is persisted, so no compensation is ever needed.) -/
theorem c3_noncommitted_attempt_inventory_unchanged (createOk : Bool)
    (userId : Option String) (ticketId newId : String) (body : PurchaseBody)
    (st : AppState) (e : AppError) (st1 : AppState)
    (h : purchaseTicketController createOk userId ticketId newId body st =
      (Except.error e, st1)) :
    st1.tickets = st.tickets := by
  unfold purchaseTicketController purchaseCommit at h
  repeat' split at h
  all_goals injection h with h1 h2
  all_goals try exact Except.noConfusion h1
  all_goals rw [← h2]

/-- C3 witness: a concrete attempt whose purchase-record persistence fails
(`createOk = false`) reaches the "purchase failed, try again later" exit with
the tickets collection unchanged. -/
theorem c3_noncommitted_attempt_inventory_unchanged_witness :
    (purchaseTicketController false (some uid1) tid1 pid1
        ⟨some ("vip"), some 3⟩ baseState =
      (Except.error ⟨400, "purchase failed, try again later"⟩, baseState)) ∧
    baseState.tickets = baseState.tickets :=
  ⟨rfl,
   c3_noncommitted_attempt_inventory_unchanged false (some uid1) tid1 pid1
     ⟨some ("vip"), some 3⟩ baseState ⟨400, "purchase failed, try again later"⟩
     baseState rfl⟩

/-- C4 (amended): the purchase controller never touches the cache on any
path, committed or not — in particular it performs no invalidation of the
event's ticket-listing key or of the purchaser's history key, so a warm
cached listing keeps serving the pre-purchase availability until its TTL
expires. -/
theorem c4_purchase_never_touches_cache (createOk : Bool)
    (userId : Option String) (ticketId newId : String) (body : PurchaseBody)
    (st : AppState) :
    ((purchaseTicketController createOk userId ticketId newId body st).2).cache =
      st.cache := by
  unfold purchaseTicketController purchaseCommit
  repeat' split
  all_goals rfl

/-- C4 (counterexample): with the listing for the event warm in the cache, a
committed purchase of 3 of the 5 available tickets returns success with the
cache untouched, and a listing read immediately afterwards serves the cached
pre-purchase view (`ticketsAvailable = 5`) while the store holds 2 — the
claimed invalidation-before-response does not happen. -/
theorem c4_stale_listing_after_purchase_counterexample :
    ((purchaseTicketController true (some uid1) tid1 pid1
        ⟨some ("vip"), some 3⟩ warmState).1 = Except.ok ⟨pid1, "vip", 3, 300⟩) ∧
    ((purchaseTicketController true (some uid1) tid1 pid1
        ⟨some ("vip"), some 3⟩ warmState).2.cache = warmState.cache) ∧
    ((ticketListByEventController (some uid1) eid1
        (purchaseTicketController true (some uid1) tid1 pid1
          ⟨some ("vip"), some 3⟩ warmState).2).1 =
      Except.ok (CacheValue.ticketList [⟨tid1, "alice", "vip", 100, 5⟩])) ∧
    ((purchaseTicketController true (some uid1) tid1 pid1
        ⟨some ("vip"), some 3⟩ warmState).2.tickets.lookup tid1 =
      some { ticketVip with ticketsAvailable := 2 }) :=
  ⟨rfl, rfl, rfl, rfl⟩

/-- Concrete stand-in for the external HMAC-SHA256 primitive, used to
evaluate the verification flow at explicit inputs (the flow itself is
parameterised over the primitive). -/
def sampleHmac (secret msg : String) : String := secret ++ "#" ++ msg

/-- Insertion into the payments collection never fails with an operational
`AppError`: its only failure mode is the duplicate-key error. -/
theorem paymentCreate_no_app_error (records : List PaymentDoc)
    (d : PaymentDoc) (e : AppError) :
    paymentCreate records d ≠ Except.error (JsError.app e) := by
  unfold paymentCreate
  repeat' split
  all_goals intro h
  all_goals try exact Except.noConfusion h
  all_goals injection h with h1
  all_goals exact JsError.noConfusion h1

/-- C5: the claim says verification accepts iff the supplied signature is the
HMAC of the request's `orderId + "|" + paymentId`.  In the code the HMAC is
taken over the module-level `orderId` variable — never assigned, hence the
string "undefined" — so (first conjunct) the signature check's outcome is a
function of the module variable, the payment id and the signature alone, the
request's `razorpay_order_id` playing no part; and (remaining conjuncts, at
an explicit instantiation of the HMAC primitive) a request is accepted whose
signature is the HMAC of "undefined|pay1" rather than of "orderA|pay1",
while the signature the claim demands is rejected. -/
theorem c5_signature_check_ignores_supplied_order_id :
    (∀ (hmac : String → String → String) (ov : Option String)
        (u pid oid sig : String) (recs : List PaymentDoc),
      (paymentVerification hmac ov (some u) ⟨pid, oid, sig⟩ recs).1 =
          Except.error (JsError.app ⟨400, "payment failed"⟩) ↔
        generatedSignature hmac ov pid ≠ sig) ∧
    ((paymentVerification sampleHmac none (some uid1)
        ⟨"pay1", "orderA", sampleHmac razorpaySecret ("undefined|pay1")⟩ []).1 =
      Except.ok ("success")) ∧
    (sampleHmac razorpaySecret ("undefined|pay1") ≠
      sampleHmac razorpaySecret ("orderA|pay1")) ∧
    ((paymentVerification sampleHmac none (some uid1)
        ⟨"pay1", "orderA", sampleHmac razorpaySecret ("orderA|pay1")⟩ []).1 =
      Except.error (JsError.app ⟨400, "payment failed"⟩)) := by
  refine ⟨?_, rfl, by decide, rfl⟩
  intro hmac ov u pid oid sig recs
  unfold paymentVerification
  dsimp only
  by_cases hsig : generatedSignature hmac ov pid = sig
  · rw [if_neg (not_not_intro hsig)]
    constructor
    · intro h
      cases hc : paymentCreate recs ⟨u, pid, oid, sig⟩ with
      | error e' =>
        rw [hc] at h
        dsimp at h
        injection h with h1
        rw [h1] at hc
        exact absurd hc (paymentCreate_no_app_error recs _ _)
      | ok r =>
        rw [hc] at h
        exact Except.noConfusion h
    · intro h
      exact absurd hsig h
  · rw [if_pos hsig]
    exact iff_of_true rfl hsig

/-- C6 (counterexample): the claim says the second verification call with an
already-recorded signature terminates with a 409 conflict distinct from a
validation failure.  In the code the duplicate-key error raised by the
payments collection's unique index is not among the cases the error handler
special-cases, so the second call surfaces as a generic 500 "Something went
wrong" — while indeed persisting no second record. -/
theorem c6_duplicate_signature_yields_500_counterexample :
    (paymentVerificationHttp sampleHmac none (some uid1)
        ⟨"pay1", "orderA", sampleHmac razorpaySecret ("undefined|pay1")⟩ [] =
      ((200, "success"),
       [⟨uid1, "pay1", "orderA", sampleHmac razorpaySecret ("undefined|pay1")⟩])) ∧
    (paymentVerificationHttp sampleHmac none (some uid1)
        ⟨"pay1", "orderA", sampleHmac razorpaySecret ("undefined|pay1")⟩
        [⟨uid1, "pay1", "orderA", sampleHmac razorpaySecret ("undefined|pay1")⟩] =
      ((500, "Something went wrong"),
       [⟨uid1, "pay1", "orderA", sampleHmac razorpaySecret ("undefined|pay1")⟩])) ∧
    (500 : Nat) ≠ 409 :=
  ⟨rfl, rfl, by decide⟩

/-- C6 (amended): a verification call whose signature already appears in the
payments collection never persists a second record — the unique indexes
reject it — but its outcome is either the 400 signature-mismatch rejection
or the generic 500 "Something went wrong", never the claimed 409 conflict. -/
theorem c6_duplicate_signature_no_second_record
    (hmac : String → String → String) (ov : Option String) (u : String)
    (body : PaymentBody) (records : List PaymentDoc)
    (hdup : records.any
      (fun p => p.razorpay_signature == body.razorpay_signature) = true) :
    (paymentVerificationHttp hmac ov (some u) body records).2 = records ∧
    ((paymentVerificationHttp hmac ov (some u) body records).1 =
        (400, "payment failed") ∨
     (paymentVerificationHttp hmac ov (some u) body records).1 =
        (500, "Something went wrong")) := by
  by_cases hsig : generatedSignature hmac ov body.razorpay_payment_id =
      body.razorpay_signature
  · by_cases h1 : records.any
        (fun p => p.razorpay_payment_id == body.razorpay_payment_id) = true
    · have hv : paymentVerification hmac ov (some u) body records =
          (Except.error (JsError.mongoDup ("razorpay_payment_id")
            body.razorpay_payment_id), records) := by
        unfold paymentVerification paymentCreate
        dsimp only
        rw [if_neg (not_not_intro hsig), if_pos h1]
      unfold paymentVerificationHttp
      rw [hv]
      exact ⟨rfl, Or.inr rfl⟩
    · by_cases h2 : records.any
          (fun p => p.razorpay_order_id == body.razorpay_order_id) = true
      · have hv : paymentVerification hmac ov (some u) body records =
            (Except.error (JsError.mongoDup ("razorpay_order_id")
              body.razorpay_order_id), records) := by
          unfold paymentVerification paymentCreate
          dsimp only
          rw [if_neg (not_not_intro hsig), if_neg h1, if_pos h2]
        unfold paymentVerificationHttp
        rw [hv]
        exact ⟨rfl, Or.inr rfl⟩
      · have hv : paymentVerification hmac ov (some u) body records =
            (Except.error (JsError.mongoDup ("razorpay_signature")
              body.razorpay_signature), records) := by
          unfold paymentVerification paymentCreate
          dsimp only
          rw [if_neg (not_not_intro hsig), if_neg h1, if_neg h2, if_pos hdup]
        unfold paymentVerificationHttp
        rw [hv]
        exact ⟨rfl, Or.inr rfl⟩
  · have hv : paymentVerification hmac ov (some u) body records =
        (Except.error (JsError.app ⟨400, "payment failed"⟩), records) := by
      unfold paymentVerification
      dsimp only
      rw [if_pos hsig]
    unfold paymentVerificationHttp
    rw [hv]
    exact ⟨rfl, Or.inl rfl⟩

/-- C6 witness: the amended theorem applied to a second call carrying the
signature already stored. -/
theorem c6_duplicate_signature_no_second_record_witness :
    (([⟨uid1, "pay1", "orderA", "sig1"⟩] : List PaymentDoc).any
      (fun p => p.razorpay_signature == ("sig1")) = true) ∧
    ((paymentVerificationHttp sampleHmac none (some uid1)
        ⟨"pay1", "orderA", "sig1"⟩ [⟨uid1, "pay1", "orderA", "sig1"⟩]).2 =
      [⟨uid1, "pay1", "orderA", "sig1"⟩]) ∧
    ((paymentVerificationHttp sampleHmac none (some uid1)
        ⟨"pay1", "orderA", "sig1"⟩ [⟨uid1, "pay1", "orderA", "sig1"⟩]).1 =
        (400, "payment failed") ∨
     (paymentVerificationHttp sampleHmac none (some uid1)
        ⟨"pay1", "orderA", "sig1"⟩ [⟨uid1, "pay1", "orderA", "sig1"⟩]).1 =
        (500, "Something went wrong")) := by
  have h := c6_duplicate_signature_no_second_record sampleHmac none uid1
    ⟨"pay1", "orderA", "sig1"⟩ [⟨uid1, "pay1", "orderA", "sig1"⟩] (by decide)
  exact ⟨by decide, h.1, h.2⟩

/-- C7 (counterexample): the claim says a purchase request with
`ticketsQuantity ≤ 0` is rejected as invalid input with no record and no
inventory change.  The Joi schema only requires a number, and `-3 > 5` is
false, so the request sails through: a 201 success is returned, a purchase
record with quantity `-3` and total price `-300` is created, and the ticket's
`ticketsAvailable` rises from 5 to 8. -/
theorem c7_negative_quantity_accepted_counterexample :
    purchaseTicketController true (some uid1) tid1 pid1
        ⟨some ("vip"), some (-3)⟩ baseState =
      (Except.ok ⟨pid1, "vip", -3, -300⟩,
       { baseState with
           tickets := [(tid1, { ticketVip with ticketsAvailable := 8 })],
           purchases := [(pid1, ⟨uid1, eid1, "vip", -3, -300⟩)] }) ∧
    (-3 : Int) ≤ 0 ∧ ((8 : Int) > 5) :=
  ⟨rfl, by decide, by decide⟩

/-- C7 (amended): a purchase request with `ticketsQuantity ≤ 0` passes
validation and — whenever the quantity does not exceed the availability,
which every non-positive quantity satisfies on a ticket with non-negative
stock — is accepted with a 201: a purchase record with that non-positive
quantity and total price `unitPrice × quantity` is created and
`ticketsAvailable` moves to `ticketsAvailable - quantity`, a strict increase
for negative quantities; the request is never rejected. -/
theorem c7_nonpositive_quantity_accepted (u tid nid tt : String) (q : Int)
    (st : AppState) (t : Ticket)
    (hvalid : isValidObjectId tid = true)
    (hlookup : st.tickets.lookup tid = some t)
    (htt : t.ticketType = tt)
    (hq0 : q ≤ 0)
    (hqa : q ≤ t.ticketsAvailable) :
    purchaseTicketController true (some u) tid nid ⟨some tt, some q⟩ st =
      (Except.ok ⟨nid, tt, q, t.price * q⟩,
       { st with
           tickets := storePut st.tickets tid
             { t with ticketsAvailable := t.ticketsAvailable - q },
           purchases := st.purchases ++
             [(nid, ⟨u, t.event, tt, q, t.price * q⟩)] }) ∧
    t.ticketsAvailable ≤ t.ticketsAvailable - q := by
  have hupd : updateTicketsAvailable t q =
      { t with ticketsAvailable := t.ticketsAvailable - q } := by
    unfold updateTicketsAvailable
    dsimp only
    rw [if_pos (by omega)]
  unfold purchaseTicketController purchaseCommit
  rw [show purchaseTicketSchemaValidate ⟨some tt, some q⟩ = some (tt, q) from rfl]
  dsimp only
  rw [if_neg (not_not_intro hvalid), hlookup]
  dsimp only
  rw [if_neg (not_not_intro htt), if_neg (by omega), if_pos rfl, hupd]
  exact ⟨rfl, by omega⟩

/-- C7 witness: the amended theorem applied to the concrete quantity `-3`
against 5 available tickets. -/
theorem c7_nonpositive_quantity_accepted_witness :
    (isValidObjectId tid1 = true ∧ baseState.tickets.lookup tid1 = some ticketVip ∧
     ticketVip.ticketType = "vip" ∧ (-3 : Int) ≤ 0 ∧
     (-3 : Int) ≤ ticketVip.ticketsAvailable) ∧
    (purchaseTicketController true (some uid1) tid1 pid1
        ⟨some ("vip"), some (-3)⟩ baseState =
      (Except.ok ⟨pid1, "vip", -3, ticketVip.price * -3⟩,
       { baseState with
           tickets := storePut baseState.tickets tid1
             { ticketVip with
                 ticketsAvailable := ticketVip.ticketsAvailable - -3 },
           purchases := baseState.purchases ++
             [(pid1, ⟨uid1, ticketVip.event, "vip", -3,
               ticketVip.price * -3⟩)] }) ∧
     ticketVip.ticketsAvailable ≤ ticketVip.ticketsAvailable - -3) :=
  ⟨⟨by decide, rfl, rfl, by decide, by decide⟩,
   c7_nonpositive_quantity_accepted uid1 tid1 pid1 ("vip") (-3) baseState
     ticketVip (by decide) rfl rfl (by decide) (by decide)⟩

/-- C8: every successful purchase creates its record with
`totalPrice = unitPrice × quantity` taken from the ticket at purchase time
(first conjunct, by inversion on any successful run), and the ticket-update
endpoint never touches the purchases collection, so a later price edit leaves
every existing purchase record's quantity and total price unchanged (second
conjunct). -/
theorem c8_total_price_capture_and_record_immutability :
    (∀ (createOk : Bool) (userId : Option String) (ticketId newId : String)
        (body : PurchaseBody) (st : AppState) (view : PurchaseView)
        (st1 : AppState) (t : Ticket) (u tt : String) (q : Int),
      purchaseTicketController createOk userId ticketId newId body st =
        (Except.ok view, st1) →
      userId = some u →
      st.tickets.lookup ticketId = some t →
      body.ticketType = some tt →
      body.ticketsQuantity = some q →
      view = ⟨newId, tt, q, t.price * q⟩ ∧
      st1.purchases = st.purchases ++
        [(newId, ⟨u, t.event, tt, q, t.price * q⟩)]) ∧
    (∀ (userId : Option String) (ticketId : String) (body : TicketBody)
        (st : AppState),
      ((updateTicketByIdController userId ticketId body st).2).purchases =
        st.purchases) := by
  constructor
  · intro createOk userId ticketId newId body st view st1 t u tt q h hu hlk hbt hbq
    subst hu
    have hval : purchaseTicketSchemaValidate body = some (tt, q) := by
      unfold purchaseTicketSchemaValidate
      rw [hbt, hbq]
    unfold purchaseTicketController purchaseCommit at h
    rw [hval] at h
    dsimp only at h
    rw [hlk] at h
    dsimp only at h
    repeat' split at h
    all_goals injection h with h1 h2
    all_goals try exact Except.noConfusion h1
    injection h1 with h3
    subst h2
    exact ⟨h3.symm, rfl⟩
  · intro userId ticketId body st
    unfold updateTicketByIdController
    repeat' split
    all_goals rfl

/-- C8 witness: a concrete purchase of quantity 2 at unit price 100 yields
total price 200, and a subsequent price edit of the ticket leaves the
purchases collection unchanged. -/
theorem c8_total_price_capture_and_record_immutability_witness :
    ((⟨pid1, "vip", 2, 200⟩ : PurchaseView) =
        ⟨pid1, "vip", 2, ticketVip.price * 2⟩ ∧
     ((purchaseTicketController true (some uid1) tid1 pid1
         ⟨some ("vip"), some 2⟩ baseState).2).purchases =
       baseState.purchases ++
         [(pid1, ⟨uid1, ticketVip.event, "vip", 2, ticketVip.price * 2⟩)]) ∧
    ((updateTicketByIdController (some aid1) tid1
        ⟨some ("vip"), some 999, some 5⟩ baseState).2).purchases =
      baseState.purchases :=
  ⟨c8_total_price_capture_and_record_immutability.1 true (some uid1) tid1 pid1
     ⟨some ("vip"), some 2⟩ baseState ⟨pid1, "vip", 2, 200⟩
     ((purchaseTicketController true (some uid1) tid1 pid1
       ⟨some ("vip"), some 2⟩ baseState).2)
     ticketVip uid1 ("vip") 2 rfl rfl rfl rfl rfl,
   c8_total_price_capture_and_record_immutability.2 (some aid1) tid1
     ⟨some ("vip"), some 999, some 5⟩ baseState⟩

/-- C9: a sequential purchase request whose quantity strictly exceeds the
ticket's current availability is rejected with the user-facing 400 "tickets
not available" error, and the state — ticket stock and purchase records — is
returned exactly as it was. -/
theorem c9_insufficient_inventory_rejected (createOk : Bool)
    (u tid nid tt : String) (q : Int) (st : AppState) (t : Ticket)
    (hvalid : isValidObjectId tid = true)
    (hlookup : st.tickets.lookup tid = some t)
    (htt : t.ticketType = tt)
    (hq : q > t.ticketsAvailable) :
    purchaseTicketController createOk (some u) tid nid ⟨some tt, some q⟩ st =
      (Except.error ⟨400, "tickets not available"⟩, st) := by
  unfold purchaseTicketController purchaseCommit
  rw [show purchaseTicketSchemaValidate ⟨some tt, some q⟩ = some (tt, q) from rfl]
  dsimp only
  rw [if_neg (not_not_intro hvalid), hlookup]
  dsimp only
  rw [if_neg (not_not_intro htt), if_pos hq]

/-- C9 witness: requesting 99 of the 5 available tickets is rejected with
"tickets not available" and the state is unchanged. -/
theorem c9_insufficient_inventory_rejected_witness :
    (isValidObjectId tid1 = true ∧ baseState.tickets.lookup tid1 = some ticketVip ∧
     ticketVip.ticketType = "vip" ∧ (99 : Int) > ticketVip.ticketsAvailable) ∧
    purchaseTicketController true (some uid1) tid1 pid1
        ⟨some ("vip"), some 99⟩ baseState =
      (Except.error ⟨400, "tickets not available"⟩, baseState) :=
  ⟨⟨by decide, rfl, rfl, by decide⟩,
   c9_insufficient_inventory_rejected true uid1 tid1 pid1 ("vip") 99 baseState
     ticketVip (by decide) rfl rfl (by decide)⟩

/-- C10: on both cached list endpoints a present cache key short-circuits the
whole handler: the response is the cached payload verbatim and the state is
untouched, whatever the requesting principal is (the ticket listing takes it
as an unused argument on this path; the comment listing never reads it) and
whether or not the supplied event id is well-formed — the id validity check
and the user check are only reached on a miss. -/
theorem c10_cache_hit_bypasses_validation_and_identity :
    (∀ (eventId : String) (st : AppState) (v : CacheValue),
      st.cache.lookup ("tickets:" ++ eventId) = some v →
      ∀ userId : Option String,
        ticketListByEventController userId eventId st = (Except.ok v, st)) ∧
    (∀ (eventId : String) (st : AppState) (v : CacheValue),
      st.cache.lookup ("comment:" ++ eventId) = some v →
      commentListController eventId st = (Except.ok v, st)) := by
  constructor
  · intro eventId st v h userId
    unfold ticketListByEventController
    dsimp only
    rw [h]
  · intro eventId st v h
    unfold commentListController
    dsimp only
    rw [h]

/-- C10 witness: with a warm cache under an ill-formed event id and no
authenticated user at all, both endpoints serve the cached payload with the
state unchanged. -/
theorem c10_cache_hit_bypasses_validation_and_identity_witness :
    (warmListState.cache.lookup ("tickets:" ++ "!!") =
        some (CacheValue.ticketList []) ∧
     ticketListByEventController none ("!!") warmListState =
       (Except.ok (CacheValue.ticketList []), warmListState)) ∧
    (warmListState.cache.lookup ("comment:" ++ "!!") =
        some (CacheValue.commentList []) ∧
     commentListController ("!!") warmListState =
       (Except.ok (CacheValue.commentList []), warmListState)) :=
  ⟨⟨rfl, c10_cache_hit_bypasses_validation_and_identity.1 ("!!") warmListState
      (CacheValue.ticketList []) rfl none⟩,
   ⟨rfl, c10_cache_hit_bypasses_validation_and_identity.2 ("!!") warmListState
      (CacheValue.commentList []) rfl⟩⟩

end EventMgmt
